import Mathlib

/-!
Shallow embedding of the HeartbeatV2 presence-heartbeat engine from
`lib/srv/heartbeatv2.go`.

The engine (`HeartbeatV2.run` / `HeartbeatV2.runWithSender` in the source) is a
single-goroutine event loop.  We embed it as a deterministic function driven by
an explicit schedule of select-events (announce tick, poll tick, degraded-check
tick, force-send, new sender, sender-done, cancellation).  Side effects that the
Go code performs (test-event emission, interval resets, latch assignments, the
`onHeartbeat` callback, closing force-send waiter channels, calls into the
driver's announce operations) are recorded in order in an effect trace, so that
ordering properties of the loop bodies become statements about concrete lists.

The driver interface `heartbeatV2Driver` is embedded as a record of state-passing
functions over an abstract driver-state type; the results of the fallible
operations (`Announce`, `FallbackAnnounce`) are determined by the driver state,
which for concrete instantiations carries a script of send outcomes.  Waiter
channels are identified by freshly allocated natural numbers (`nextWaiterId`),
standing in for the distinct channel values `make(chan struct\x7b\x7d)` produces.

`time.Time` is embedded as `Nat`; Go's `now.After(t)` is `t < now` (strict).
The jittered backoff value `utils.SeventhJitter(h.fallbackBackoff)` is passed in
as an explicit `jitter` input for each outer-loop iteration.
-/

namespace Teleport

/-- Test events mirroring the `hbv2TestEvent` constants of the source. -/
inductive TestEvt where
  | announceOk
  | announceErr
  | fallbackOk
  | fallbackErr
  | pollSame
  | pollDiff
  | hbStart
  | hbClose
  | announceInterval
  | fallbackBackoff
  | noFallback
  | onHeartbeatOk
  | onHeartbeatErr
  deriving DecidableEq, Repr

/-- The three sentinel errors surfaced through `onHeartbeat`
(`h.announceFailed`, `h.fallbackFailed`, `noSenderErr` in the source). -/
inductive HBErr where
  | announceFailed
  | fallbackFailed
  | noSender
  deriving DecidableEq, Repr

/-- Observable side effects of one engine action, in program order:
test-event sends, `interval.Reset` calls on the announce / degraded-check
intervals, assignments to the `shouldAnnounce` latch, the `onHeartbeat`
callback (with `none` for a `nil` error), closing a parked force-send waiter,
and the driver announce calls themselves. -/
inductive Effect where
  | testEvt (e : TestEvt)
  | resetAnnounce
  | resetDegradedCheck
  | latchAssign (b : Bool)
  | heartbeatCb (r : Option HBErr)
  | closeWaiter (id : Nat)
  | fallbackAnnounceCall
  | announceCall
  deriving DecidableEq, Repr

/-- Embedding of the `heartbeatV2Driver` interface: state-passing versions of
`Poll`, `SupportsFallback`, `FallbackAnnounce` and `Announce` over a driver
state type `σ` (the Booleans are the `changed` / `ok` results). -/
structure DriverOps (σ : Type) where
  Poll : σ → Bool × σ
  SupportsFallback : σ → Bool
  FallbackAnnounce : σ → Bool × σ
  Announce : σ → Bool × σ

/-- The goroutine-local mutable state of `HeartbeatV2`: the `shouldAnnounce`
latch, `fallbackBackoffTime`, the parked `announceWaiters` (as ids), a fresh-id
counter standing in for channel allocation, and the wrapped driver state. -/
structure HeartbeatV2 (σ : Type) where
  shouldAnnounce : Bool
  fallbackBackoffTime : Nat
  announceWaiters : List Nat
  nextWaiterId : Nat
  inner : σ

/-- Initial engine state: latch false, zero-value backoff time, no waiters
(`newHeartbeatV2` plus Go zero values). -/
def initHeartbeatV2 {σ : Type} (d : σ) : HeartbeatV2 σ :=
  { shouldAnnounce := false
    fallbackBackoffTime := 0
    announceWaiters := []
    nextWaiterId := 0
    inner := d }

/-- Effects of `h.onHeartbeat(err)`: the matching test event, then the
`onHeartbeatInner` callback. -/
def onHeartbeatFx (r : Option HBErr) : List Effect :=
  match r with
  | none => [Effect.testEvt TestEvt.onHeartbeatOk, Effect.heartbeatCb none]
  | some e => [Effect.testEvt TestEvt.onHeartbeatErr, Effect.heartbeatCb (some e)]

/-- Preamble of one outer-loop (no-sender) iteration: the fallback announce
attempt of `HeartbeatV2.run` (the `if h.shouldAnnounce` block before the
select).  `now` is the value of `time.Now()` for this iteration and `jitter`
the value of `utils.SeventhJitter(h.fallbackBackoff)`. -/
def outerAnnounceStep {σ : Type} (ops : DriverOps σ) (now jitter : Nat)
    (s : HeartbeatV2 σ) : HeartbeatV2 σ × List Effect :=
  if s.shouldAnnounce then
    if ops.SupportsFallback s.inner then
      if s.fallbackBackoffTime < now then
        let r := ops.FallbackAnnounce s.inner
        if r.1 then
          ({ s with inner := r.2, shouldAnnounce := false, announceWaiters := [] },
            [Effect.fallbackAnnounceCall, Effect.testEvt TestEvt.fallbackOk,
              Effect.resetAnnounce, Effect.resetDegradedCheck,
              Effect.latchAssign false]
              ++ onHeartbeatFx none
              ++ s.announceWaiters.map Effect.closeWaiter)
        else
          ({ s with inner := r.2, fallbackBackoffTime := now + jitter },
            [Effect.fallbackAnnounceCall, Effect.testEvt TestEvt.fallbackErr]
              ++ onHeartbeatFx (some HBErr.fallbackFailed))
      else
        (s, [Effect.testEvt TestEvt.fallbackBackoff])
    else
      (s, [Effect.testEvt TestEvt.noFallback])
  else
    (s, [])

/-- Preamble of one inner-loop (with-sender) iteration: the stream announce
attempt of `HeartbeatV2.runWithSender` (the `if h.shouldAnnounce` block). -/
def innerAnnounceStep {σ : Type} (ops : DriverOps σ)
    (s : HeartbeatV2 σ) : HeartbeatV2 σ × List Effect :=
  if s.shouldAnnounce then
    let r := ops.Announce s.inner
    if r.1 then
      ({ s with inner := r.2, shouldAnnounce := false, announceWaiters := [] },
        [Effect.announceCall, Effect.testEvt TestEvt.announceOk,
          Effect.resetAnnounce, Effect.resetDegradedCheck,
          Effect.latchAssign false]
          ++ onHeartbeatFx none
          ++ s.announceWaiters.map Effect.closeWaiter)
    else
      ({ s with inner := r.2 },
        [Effect.announceCall, Effect.testEvt TestEvt.announceErr]
          ++ onHeartbeatFx (some HBErr.announceFailed))
  else
    (s, [])

/-- Handler of the `<-h.announce.Next()` select case (both loops). -/
def announceTickStep {σ : Type} (s : HeartbeatV2 σ) : HeartbeatV2 σ × List Effect :=
  ({ s with shouldAnnounce := true },
    [Effect.testEvt TestEvt.announceInterval, Effect.latchAssign true])

/-- Handler of the `<-h.poll.Next()` select case (both loops). -/
def pollTickStep {σ : Type} (ops : DriverOps σ) (s : HeartbeatV2 σ) :
    HeartbeatV2 σ × List Effect :=
  let r := ops.Poll s.inner
  if r.1 then
    ({ s with inner := r.2, shouldAnnounce := true },
      [Effect.testEvt TestEvt.pollDiff, Effect.latchAssign true])
  else
    ({ s with inner := r.2 }, [Effect.testEvt TestEvt.pollSame])

/-- Handler of the `<-h.degradedCheck.Next()` select case of the outer loop:
`if !h.inner.SupportsFallback() || (!h.inner.Poll(..) && !h.shouldAnnounce)`
(note the short-circuit: `Poll` runs only when fallback is supported). -/
def outerDegradedStep {σ : Type} (ops : DriverOps σ) (s : HeartbeatV2 σ) :
    HeartbeatV2 σ × List Effect :=
  if ops.SupportsFallback s.inner then
    let r := ops.Poll s.inner
    let s1 := { s with inner := r.2 }
    if !r.1 && !s.shouldAnnounce then
      (s1, onHeartbeatFx (some HBErr.noSender))
    else
      (s1, [])
  else
    (s, onHeartbeatFx (some HBErr.noSender))

/-- Handler of the `<-h.degradedCheck.Next()` select case of the inner loop:
`if !h.inner.Poll(..) && !h.shouldAnnounce` fires `onHeartbeat(nil)`. -/
def innerDegradedStep {σ : Type} (ops : DriverOps σ) (s : HeartbeatV2 σ) :
    HeartbeatV2 σ × List Effect :=
  let r := ops.Poll s.inner
  let s1 := { s with inner := r.2 }
  if !r.1 && !s.shouldAnnounce then
    (s1, onHeartbeatFx none)
  else
    (s1, [])

/-- Handler of the `ch := <-h.testAnnounce` select case (both loops): set the
latch and park a fresh waiter.  The fresh channel is modelled by allocating
the next unused id. -/
def forceSendStep {σ : Type} (s : HeartbeatV2 σ) : HeartbeatV2 σ × List Effect :=
  ({ s with shouldAnnounce := true
            announceWaiters := s.announceWaiters ++ [s.nextWaiterId]
            nextWaiterId := s.nextWaiterId + 1 },
    [Effect.latchAssign true])

/-- Select events of the inner (with-sender) loop of `runWithSender`. -/
inductive InnerEvent where
  | senderDone
  | announceTick
  | pollTick
  | degradedTick
  | forceSend
  | cancel
  deriving DecidableEq, Repr

/-- Select cases of the inner loop that make `runWithSender` return. -/
def innerReturns : InnerEvent → Bool
  | InnerEvent.senderDone => true
  | InnerEvent.cancel => true
  | _ => false

/-- Dispatch of the non-returning inner-loop select cases. -/
def innerEventStep {σ : Type} (ops : DriverOps σ) (ev : InnerEvent)
    (s : HeartbeatV2 σ) : HeartbeatV2 σ × List Effect :=
  match ev with
  | InnerEvent.senderDone => (s, [])
  | InnerEvent.cancel => (s, [])
  | InnerEvent.announceTick => announceTickStep s
  | InnerEvent.pollTick => pollTickStep ops s
  | InnerEvent.degradedTick => innerDegradedStep ops s
  | InnerEvent.forceSend => forceSendStep s

/-- The `for` loop of `HeartbeatV2.runWithSender`, driven by a finite schedule
of delivered select events.  Each iteration runs the announce preamble and then
handles one event; `senderDone` and `cancel` return.  An exhausted schedule
models the goroutine blocking in the select (the trace is a prefix). -/
def runWithSenderLoop {σ : Type} (ops : DriverOps σ) :
    List InnerEvent → HeartbeatV2 σ → HeartbeatV2 σ × List Effect
  | [], s => (s, [])
  | ev :: rest, s =>
    let p := innerAnnounceStep ops s
    if innerReturns ev then
      p
    else
      let e := innerEventStep ops ev p.1
      let t := runWithSenderLoop ops rest e.1
      (t.1, p.2 ++ e.2 ++ t.2)

/-- `HeartbeatV2.runWithSender`: on entry poll once and set the latch on a
reported change, then run the inner loop. -/
def runWithSender {σ : Type} (ops : DriverOps σ) (evs : List InnerEvent)
    (s : HeartbeatV2 σ) : HeartbeatV2 σ × List Effect :=
  let r := ops.Poll s.inner
  if r.1 then
    let t := runWithSenderLoop ops evs { s with inner := r.2, shouldAnnounce := true }
    (t.1, [Effect.latchAssign true] ++ t.2)
  else
    runWithSenderLoop ops evs { s with inner := r.2 }

/-- Select events of the outer (no-sender) loop of `run`; a `newSender` event
carries the inner-loop schedule consumed before the sender goes away. -/
inductive OuterEvent where
  | newSender (innerEvs : List InnerEvent)
  | announceTick
  | pollTick
  | degradedTick
  | forceSend
  | cancel
  deriving DecidableEq, Repr

/-- One outer-loop iteration input: the `time.Now()` value, the jittered
fallback backoff for this iteration, and the delivered select event. -/
structure OuterStep where
  now : Nat
  jitter : Nat
  ev : OuterEvent
  deriving DecidableEq, Repr

/-- Handler of the `sender := <-h.handle.Sender()` select case: run the inner
loop to completion, then `h.degradedCheck.Reset()`. -/
def newSenderStep {σ : Type} (ops : DriverOps σ) (innerEvs : List InnerEvent)
    (s : HeartbeatV2 σ) : HeartbeatV2 σ × List Effect :=
  let r := runWithSender ops innerEvs s
  (r.1, r.2 ++ [Effect.resetDegradedCheck])

/-- Dispatch of the non-returning outer-loop select cases. -/
def outerEventStep {σ : Type} (ops : DriverOps σ) (ev : OuterEvent)
    (s : HeartbeatV2 σ) : HeartbeatV2 σ × List Effect :=
  match ev with
  | OuterEvent.newSender evs => newSenderStep ops evs s
  | OuterEvent.announceTick => announceTickStep s
  | OuterEvent.pollTick => pollTickStep ops s
  | OuterEvent.degradedTick => outerDegradedStep ops s
  | OuterEvent.forceSend => forceSendStep s
  | OuterEvent.cancel => (s, [])

/-- The `for` loop of `HeartbeatV2.run`, driven by a finite schedule of
outer-loop iteration inputs.  Each iteration runs the fallback preamble and
then handles one event; `cancel` (`<-h.closeContext.Done()`) returns. -/
def runLoop {σ : Type} (ops : DriverOps σ) :
    List OuterStep → HeartbeatV2 σ → HeartbeatV2 σ × List Effect
  | [], s => (s, [])
  | st :: rest, s =>
    let p := outerAnnounceStep ops st.now st.jitter s
    if st.ev = OuterEvent.cancel then
      p
    else
      let e := outerEventStep ops st.ev p.1
      let t := runLoop ops rest e.1
      (t.1, p.2 ++ e.2 ++ t.2)

/-- `HeartbeatV2.run`: emit the start test event, run the loop, and emit the
close test event on return (the deferred `h.testEvent(hbv2Close)`). -/
def run {σ : Type} (ops : DriverOps σ) (sched : List OuterStep)
    (s : HeartbeatV2 σ) : HeartbeatV2 σ × List Effect :=
  let t := runLoop ops sched s
  (t.1, [Effect.testEvt TestEvt.hbStart] ++ t.2 ++ [Effect.testEvt TestEvt.hbClose])

/-- Ids of the waiters closed in an effect trace, in order. -/
def closedIds (fx : List Effect) : List Nat :=
  fx.filterMap fun e =>
    match e with
    | Effect.closeWaiter i => some i
    | _ => none

/-- Checks that, scanning an effect trace left to right, an effect satisfying
`p` occurs and occurs strictly before any effect satisfying `q`. -/
def firstBefore (p q : Effect → Bool) : List Effect → Bool
  | [] => false
  | e :: rest => if p e then true else if q e then false else firstBefore p q rest

/-! ### The SSH-server driver (`sshServerHeartbeatV2`) -/

/-- Embedding of a `types.ServerV2` snapshot: the externally meaningful fields
(name, address, hostname, labels) together with a version counter and
audit/expiry metadata that the semantic comparator ignores. -/
structure ServerV2 where
  name : String
  addr : String
  hostname : String
  labels : List (String × String)
  resourceID : Nat
  expires : Nat
  deriving DecidableEq, Repr

/-- Result of the server comparator (only the equal / different distinction
matters to the heartbeat code). -/
inductive CompareResult where
  | Equal
  | Different
  deriving DecidableEq, Repr

/-- Modelled from the spec: `services.CompareServers` (package `lib/services`,
not part of the excerpted sources).  Per the spec it is a semantic comparator:
two servers are equal iff their externally meaningful fields agree, ignoring
version counters and audit metadata; otherwise the result is `Different`. -/
def CompareServers (a b : ServerV2) : CompareResult :=
  if a.name = b.name ∧ a.addr = b.addr ∧ a.hostname = b.hostname ∧ a.labels = b.labels then
    CompareResult.Equal
  else
    CompareResult.Different

/-- State of the SSH-server driver `sshServerHeartbeatV2`.  The `getServer`
callback is embedded as a stream `getServerSeq` of successive snapshots indexed
by a call counter (each call may observe a different current spec); the
outcomes of `announcer.UpsertNode` and `sender.Send` are scripted lists of
Booleans; `sentPayloads` logs the payloads handed to `sender.Send`. -/
structure SshServerHeartbeatV2 where
  getServerSeq : Nat → ServerV2
  getServerCalls : Nat
  hasAnnouncer : Bool
  upsertResults : List Bool
  sendResults : List Bool
  sentPayloads : List ServerV2
  prev : Option ServerV2

/-- One call of `h.getServer(ctx)`: yields the next snapshot of the stream. -/
def getServer (s : SshServerHeartbeatV2) : ServerV2 × SshServerHeartbeatV2 :=
  (s.getServerSeq s.getServerCalls, { s with getServerCalls := s.getServerCalls + 1 })

/-- Consume the next scripted outcome (a missing script entry reads as
failure). -/
def takeOutcome : List Bool → Bool × List Bool
  | [] => (false, [])
  | b :: rest => (b, rest)

/-- `sshServerHeartbeatV2.Poll`: report `true` when nothing was ever announced,
else compare the current snapshot against `prev`. -/
def SshServerHeartbeatV2.Poll (s : SshServerHeartbeatV2) :
    Bool × SshServerHeartbeatV2 :=
  match s.prev with
  | none => (true, s)
  | some p =>
    let g := getServer s
    (decide (CompareServers g.1 p = CompareResult.Different), g.2)

/-- `sshServerHeartbeatV2.SupportsFallback`: an announcer was injected. -/
def SshServerHeartbeatV2.SupportsFallback (s : SshServerHeartbeatV2) : Bool :=
  s.hasAnnouncer

/-- `sshServerHeartbeatV2.FallbackAnnounce`: upsert the current snapshot via
the legacy announcer; record it as `prev` only on success. -/
def SshServerHeartbeatV2.FallbackAnnounce (s : SshServerHeartbeatV2) :
    Bool × SshServerHeartbeatV2 :=
  if s.hasAnnouncer then
    let g := getServer s
    let u := takeOutcome g.2.upsertResults
    let s1 := { g.2 with upsertResults := u.2 }
    if u.1 then
      (true, { s1 with prev := some g.1 })
    else
      (false, s1)
  else
    (false, s)

/-- One call of `sender.Send(ctx, proto.InventoryHeartbeat\x7b...\x7d)`:
consumes the next scripted outcome and logs the payload. -/
def sendHeartbeat (payload : ServerV2) (s : SshServerHeartbeatV2) :
    Bool × SshServerHeartbeatV2 :=
  let u := takeOutcome s.sendResults
  (u.1, { s with sendResults := u.2, sentPayloads := s.sentPayloads ++ [payload] })

/-- `sshServerHeartbeatV2.Announce`: bind `server := h.getServer(ctx)`, send a
heartbeat whose payload is a second `h.getServer(ctx)` call (as in the source),
and on success record the first snapshot as `prev`. -/
def SshServerHeartbeatV2.Announce (s : SshServerHeartbeatV2) :
    Bool × SshServerHeartbeatV2 :=
  let g1 := getServer s
  let g2 := getServer g1.2
  let r := sendHeartbeat g2.1 g2.2
  if r.1 then
    (true, { r.2 with prev := some g1.1 })
  else
    (false, r.2)

/-- The SSH driver packaged as a `DriverOps` instance. -/
def sshDriverOps : DriverOps SshServerHeartbeatV2 :=
  { Poll := SshServerHeartbeatV2.Poll
    SupportsFallback := SshServerHeartbeatV2.SupportsFallback
    FallbackAnnounce := SshServerHeartbeatV2.FallbackAnnounce
    Announce := SshServerHeartbeatV2.Announce }

/-! ### A scripted driver for concrete engine-level evaluations -/

/-- A driver whose four operations return scripted results, used to exercise
the engine loops on concrete inputs. -/
structure ScriptDriver where
  supports : Bool
  pollResults : List Bool
  announceResults : List Bool
  fallbackResults : List Bool
  deriving DecidableEq, Repr

/-- `DriverOps` instance for the scripted driver. -/
def scriptOps : DriverOps ScriptDriver :=
  { Poll := fun d =>
      let r := takeOutcome d.pollResults
      (r.1, { d with pollResults := r.2 })
    SupportsFallback := fun d => d.supports
    FallbackAnnounce := fun d =>
      let r := takeOutcome d.fallbackResults
      (r.1, { d with fallbackResults := r.2 })
    Announce := fun d =>
      let r := takeOutcome d.announceResults
      (r.1, { d with announceResults := r.2 }) }

/-! ### Concrete evaluation inputs -/

/-- Scripted driver whose one stream announce succeeds. -/
def okDrv : ScriptDriver :=
  { supports := false, pollResults := [], announceResults := [true], fallbackResults := [] }

/-- Engine state with the latch set and one parked waiter, wrapping `okDrv`. -/
def okState : HeartbeatV2 ScriptDriver :=
  { shouldAnnounce := true, fallbackBackoffTime := 0, announceWaiters := [0],
    nextWaiterId := 1, inner := okDrv }

/-- Scripted driver with fallback support whose one fallback attempt succeeds. -/
def gateDrv : ScriptDriver :=
  { supports := true, pollResults := [], announceResults := [], fallbackResults := [true] }

/-- Engine state with the latch set and fallback deadline 5, wrapping `gateDrv`. -/
def gateState : HeartbeatV2 ScriptDriver :=
  { shouldAnnounce := true, fallbackBackoffTime := 5, announceWaiters := [],
    nextWaiterId := 0, inner := gateDrv }

/-- Scripted driver whose stream announce and fallback announce both fail. -/
def failDrv : ScriptDriver :=
  { supports := true, pollResults := [], announceResults := [false], fallbackResults := [false] }

/-- Engine state with the latch set, wrapping `failDrv`. -/
def failState : HeartbeatV2 ScriptDriver :=
  { shouldAnnounce := true, fallbackBackoffTime := 1, announceWaiters := [],
    nextWaiterId := 0, inner := failDrv }

/-- Driver reporting no change on poll, with the latch clear in `calmState`. -/
def calmDrv : ScriptDriver :=
  { supports := false, pollResults := [false], announceResults := [], fallbackResults := [] }

/-- Quiescent engine state (latch clear, driver sees no change). -/
def calmState : HeartbeatV2 ScriptDriver :=
  { shouldAnnounce := false, fallbackBackoffTime := 0, announceWaiters := [],
    nextWaiterId := 0, inner := calmDrv }

/-- Engine state with the latch set, wrapping a driver that reports a change. -/
def busyState : HeartbeatV2 ScriptDriver :=
  { shouldAnnounce := true, fallbackBackoffTime := 0, announceWaiters := [],
    nextWaiterId := 0,
    inner := { supports := false, pollResults := [true], announceResults := [],
               fallbackResults := [] } }

/-- Driver whose entry poll reports a change and whose stream announce fails. -/
def reconnectDrv : ScriptDriver :=
  { supports := false, pollResults := [true], announceResults := [false], fallbackResults := [] }

/-- Idle engine state wrapping `reconnectDrv`, used to exercise the
new-sender transition. -/
def reconnectState : HeartbeatV2 ScriptDriver :=
  { shouldAnnounce := false, fallbackBackoffTime := 0, announceWaiters := [],
    nextWaiterId := 0, inner := reconnectDrv }

/-- Scripted driver for a full outer-loop run with force-sends. -/
def fullDrv : ScriptDriver :=
  { supports := true, pollResults := [true, false], announceResults := [true],
    fallbackResults := [true] }

/-- Outer-loop schedule: two force-sends, one inner-loop session, then
cancellation. -/
def fullSched : List OuterStep :=
  [{ now := 0, jitter := 0, ev := OuterEvent.forceSend },
   { now := 5, jitter := 1, ev := OuterEvent.forceSend },
   { now := 6, jitter := 1,
     ev := OuterEvent.newSender [InnerEvent.forceSend, InnerEvent.senderDone] },
   { now := 9, jitter := 2, ev := OuterEvent.cancel }]

/-- Engine state with the latch set and two parked waiters, wrapping `fullDrv`
(whose next stream announce succeeds). -/
def drainState : HeartbeatV2 ScriptDriver :=
  { shouldAnnounce := true, fallbackBackoffTime := 0, announceWaiters := [4, 7],
    nextWaiterId := 8, inner := fullDrv }

/-- A concrete server snapshot. -/
def srvA : ServerV2 :=
  { name := "node", addr := "10.0.0.1:3022", hostname := "alpha", labels := [],
    resourceID := 0, expires := 0 }

/-- A snapshot semantically different from `srvA` (the address changed). -/
def srvB : ServerV2 :=
  { name := "node", addr := "10.0.0.2:3022", hostname := "alpha", labels := [],
    resourceID := 0, expires := 0 }

/-- Snapshot stream whose first observation is `srvA` and whose later
observations are `srvB` (the advertised spec changes between the two
`getServer` calls inside one `Announce`). -/
def driftSeq : Nat → ServerV2 :=
  fun n => match n with
  | 0 => srvA
  | _ => srvB

/-- SSH driver state over `driftSeq` whose one stream send succeeds. -/
def driftState : SshServerHeartbeatV2 :=
  { getServerSeq := driftSeq, getServerCalls := 0, hasAnnouncer := false,
    upsertResults := [], sendResults := [true], sentPayloads := [], prev := none }

/-- SSH driver state whose stream send fails (empty script) while the current
snapshot (`srvB`) differs from the recorded `prev` (`srvA`). -/
def staleState : SshServerHeartbeatV2 :=
  { getServerSeq := fun _ => srvB, getServerCalls := 0, hasAnnouncer := false,
    upsertResults := [], sendResults := [], sentPayloads := [], prev := some srvA }

/-! ### Waiter-safety invariant -/

/-- Invariant tying an engine state to the list of waiter ids closed so far:
parked waiters are distinct and below the fresh-id counter, already-closed ids
are distinct, below the counter, and no longer parked. -/
def WaiterInv {σ : Type} (s : HeartbeatV2 σ) (closed : List Nat) : Prop :=
  s.announceWaiters.Nodup ∧
  (∀ i ∈ s.announceWaiters, i < s.nextWaiterId) ∧
  (∀ i ∈ closed, i < s.nextWaiterId) ∧
  closed.Nodup ∧
  (∀ i ∈ closed, i ∉ s.announceWaiters)

/-- A state-and-trace step preserves `WaiterInv`, extending the closed list by
the waiters its trace closes. -/
def PreservesWaiterInv {σ : Type} (f : HeartbeatV2 σ → HeartbeatV2 σ × List Effect) : Prop :=
  ∀ s closed, WaiterInv s closed → WaiterInv (f s).1 (closed ++ closedIds (f s).2)

/-! ### Helper lemmas -/

theorem closedIds_append (a b : List Effect) :
    closedIds (a ++ b) = closedIds a ++ closedIds b := by
  simp [closedIds]

theorem closedIds_map_closeWaiter (ws : List Nat) :
    closedIds (ws.map Effect.closeWaiter) = ws := by
  induction ws with
  | nil => rfl
  | cons w rest ih =>
    simp only [List.map_cons, closedIds, List.filterMap_cons] at ih ⊢
    rw [ih]

theorem closedIds_onHeartbeatFx (r : Option HBErr) :
    closedIds (onHeartbeatFx r) = [] := by
  cases r <;> rfl

theorem closedIds_nil : closedIds [] = [] := rfl

theorem closedIds_testEvt (e : TestEvt) (fx : List Effect) :
    closedIds (Effect.testEvt e :: fx) = closedIds fx := rfl

theorem closedIds_resetAnnounce (fx : List Effect) :
    closedIds (Effect.resetAnnounce :: fx) = closedIds fx := rfl

theorem closedIds_resetDegradedCheck (fx : List Effect) :
    closedIds (Effect.resetDegradedCheck :: fx) = closedIds fx := rfl

theorem closedIds_latchAssign (b : Bool) (fx : List Effect) :
    closedIds (Effect.latchAssign b :: fx) = closedIds fx := rfl

theorem closedIds_heartbeatCb (r : Option HBErr) (fx : List Effect) :
    closedIds (Effect.heartbeatCb r :: fx) = closedIds fx := rfl

theorem closedIds_fallbackAnnounceCall (fx : List Effect) :
    closedIds (Effect.fallbackAnnounceCall :: fx) = closedIds fx := rfl

theorem closedIds_announceCall (fx : List Effect) :
    closedIds (Effect.announceCall :: fx) = closedIds fx := rfl

theorem closedIds_closeWaiter (i : Nat) (fx : List Effect) :
    closedIds (Effect.closeWaiter i :: fx) = i :: closedIds fx := rfl

attribute [simp] closedIds_append closedIds_map_closeWaiter closedIds_onHeartbeatFx
attribute [simp] closedIds_nil closedIds_testEvt closedIds_resetAnnounce
attribute [simp] closedIds_resetDegradedCheck closedIds_latchAssign closedIds_heartbeatCb
attribute [simp] closedIds_fallbackAnnounceCall closedIds_announceCall closedIds_closeWaiter

theorem waiterInv_of_eq {σ : Type} {s s' : HeartbeatV2 σ} {closed : List Nat}
    (hw : s'.announceWaiters = s.announceWaiters)
    (hn : s'.nextWaiterId = s.nextWaiterId)
    (h : WaiterInv s closed) : WaiterInv s' closed := by
  obtain ⟨h1, h2, h3, h4, h5⟩ := h
  exact ⟨by rw [hw]; exact h1, by rw [hw, hn]; exact h2, by rw [hn]; exact h3, h4,
    by rw [hw]; exact h5⟩

theorem waiterInv_close_all {σ : Type} {s s' : HeartbeatV2 σ} {closed : List Nat}
    (h : WaiterInv s closed)
    (hw : s'.announceWaiters = [])
    (hn : s'.nextWaiterId = s.nextWaiterId) :
    WaiterInv s' (closed ++ s.announceWaiters) := by
  obtain ⟨h1, h2, h3, h4, h5⟩ := h
  refine ⟨by rw [hw]; exact List.nodup_nil, by rw [hw]; simp, ?_, ?_, by rw [hw]; simp⟩
  · intro i hi
    rw [hn]
    rcases List.mem_append.mp hi with hc | hm
    · exact h3 i hc
    · exact h2 i hm
  · exact h4.append h1 fun a ha hb => h5 a ha hb

theorem preserves_forceSendStep {σ : Type} :
    PreservesWaiterInv (forceSendStep (σ := σ)) := by
  intro s closed h
  obtain ⟨h1, h2, h3, h4, h5⟩ := h
  have hfx : closedIds (forceSendStep s).2 = [] := rfl
  rw [hfx, List.append_nil]
  refine ⟨?_, ?_, ?_, h4, ?_⟩
  · refine h1.append (List.nodup_singleton _) ?_
    intro a ha hb
    have hlt := h2 a ha
    have hab : a = s.nextWaiterId := by simpa using hb
    omega
  · intro i hi
    simp only [forceSendStep] at hi ⊢
    rcases List.mem_append.mp hi with hm | hone
    · have := h2 i hm; omega
    · have : i = s.nextWaiterId := by simpa using hone
      omega
  · intro i hi
    simp only [forceSendStep]
    have := h3 i hi
    omega
  · intro i hi
    simp only [forceSendStep, List.mem_append, List.mem_singleton]
    push_neg
    refine ⟨h5 i hi, ?_⟩
    have := h3 i hi
    omega

theorem preserves_announceTickStep {σ : Type} :
    PreservesWaiterInv (announceTickStep (σ := σ)) := by
  intro s closed h
  have hfx : closedIds (announceTickStep s).2 = [] := rfl
  rw [hfx, List.append_nil]
  exact waiterInv_of_eq rfl rfl h

theorem preserves_pollTickStep {σ : Type} (ops : DriverOps σ) :
    PreservesWaiterInv (pollTickStep ops) := by
  intro s closed h
  unfold pollTickStep
  dsimp only
  split
  · have hfx : closedIds [Effect.testEvt TestEvt.pollDiff, Effect.latchAssign true] = [] := rfl
    rw [hfx, List.append_nil]
    exact waiterInv_of_eq rfl rfl h
  · have hfx : closedIds [Effect.testEvt TestEvt.pollSame] = [] := rfl
    rw [hfx, List.append_nil]
    exact waiterInv_of_eq rfl rfl h

theorem preserves_innerDegradedStep {σ : Type} (ops : DriverOps σ) :
    PreservesWaiterInv (innerDegradedStep ops) := by
  intro s closed h
  unfold innerDegradedStep
  dsimp only
  split
  · rw [closedIds_onHeartbeatFx, List.append_nil]
    exact waiterInv_of_eq rfl rfl h
  · rw [show closedIds [] = [] from rfl, List.append_nil]
    exact waiterInv_of_eq rfl rfl h

theorem preserves_outerDegradedStep {σ : Type} (ops : DriverOps σ) :
    PreservesWaiterInv (outerDegradedStep ops) := by
  intro s closed h
  unfold outerDegradedStep
  dsimp only
  split
  · split
    · rw [closedIds_onHeartbeatFx, List.append_nil]
      exact waiterInv_of_eq rfl rfl h
    · rw [show closedIds [] = [] from rfl, List.append_nil]
      exact waiterInv_of_eq rfl rfl h
  · rw [closedIds_onHeartbeatFx, List.append_nil]
    exact waiterInv_of_eq rfl rfl h

theorem preserves_innerAnnounceStep {σ : Type} (ops : DriverOps σ) :
    PreservesWaiterInv (innerAnnounceStep ops) := by
  intro s closed h
  unfold innerAnnounceStep
  dsimp only
  split
  · split
    · have hfx : closedIds
          ([Effect.announceCall, Effect.testEvt TestEvt.announceOk,
            Effect.resetAnnounce, Effect.resetDegradedCheck, Effect.latchAssign false]
            ++ onHeartbeatFx none ++ s.announceWaiters.map Effect.closeWaiter)
          = s.announceWaiters := by
        rw [closedIds_append, closedIds_append, closedIds_map_closeWaiter,
          closedIds_onHeartbeatFx]
        rfl
      rw [hfx]
      exact waiterInv_close_all h rfl rfl
    · have hfx : closedIds
          ([Effect.announceCall, Effect.testEvt TestEvt.announceErr]
            ++ onHeartbeatFx (some HBErr.announceFailed)) = [] := by
        rw [closedIds_append, closedIds_onHeartbeatFx]
        rfl
      rw [hfx, List.append_nil]
      exact waiterInv_of_eq rfl rfl h
  · rw [show closedIds [] = [] from rfl, List.append_nil]
    exact waiterInv_of_eq rfl rfl h

theorem preserves_outerAnnounceStep {σ : Type} (ops : DriverOps σ) (now jitter : Nat) :
    PreservesWaiterInv (outerAnnounceStep ops now jitter) := by
  intro s closed h
  unfold outerAnnounceStep
  dsimp only
  split
  · split
    · split
      · split
        · have hfx : closedIds
              ([Effect.fallbackAnnounceCall, Effect.testEvt TestEvt.fallbackOk,
                Effect.resetAnnounce, Effect.resetDegradedCheck, Effect.latchAssign false]
                ++ onHeartbeatFx none ++ s.announceWaiters.map Effect.closeWaiter)
              = s.announceWaiters := by
            rw [closedIds_append, closedIds_append, closedIds_map_closeWaiter,
              closedIds_onHeartbeatFx]
            rfl
          rw [hfx]
          exact waiterInv_close_all h rfl rfl
        · have hfx : closedIds
              ([Effect.fallbackAnnounceCall, Effect.testEvt TestEvt.fallbackErr]
                ++ onHeartbeatFx (some HBErr.fallbackFailed)) = [] := by
            rw [closedIds_append, closedIds_onHeartbeatFx]
            rfl
          rw [hfx, List.append_nil]
          exact waiterInv_of_eq rfl rfl h
      · rw [show closedIds [Effect.testEvt TestEvt.fallbackBackoff] = [] from rfl,
          List.append_nil]
        exact waiterInv_of_eq rfl rfl h
    · rw [show closedIds [Effect.testEvt TestEvt.noFallback] = [] from rfl, List.append_nil]
      exact waiterInv_of_eq rfl rfl h
  · rw [show closedIds [] = [] from rfl, List.append_nil]
    exact waiterInv_of_eq rfl rfl h

theorem preserves_innerEventStep {σ : Type} (ops : DriverOps σ) (ev : InnerEvent) :
    PreservesWaiterInv (innerEventStep ops ev) := by
  cases ev with
  | senderDone =>
    intro s closed h
    show WaiterInv s (closed ++ [])
    simpa using h
  | cancel =>
    intro s closed h
    show WaiterInv s (closed ++ [])
    simpa using h
  | announceTick => exact preserves_announceTickStep
  | pollTick => exact preserves_pollTickStep ops
  | degradedTick => exact preserves_innerDegradedStep ops
  | forceSend => exact preserves_forceSendStep

theorem preserves_runWithSenderLoop {σ : Type} (ops : DriverOps σ) (evs : List InnerEvent) :
    PreservesWaiterInv (runWithSenderLoop ops evs) := by
  induction evs with
  | nil =>
    intro s closed h
    show WaiterInv s (closed ++ [])
    simpa using h
  | cons ev rest ih =>
    intro s closed h
    unfold runWithSenderLoop
    dsimp only
    split
    · exact preserves_innerAnnounceStep ops s closed h
    · have h1 := preserves_innerAnnounceStep ops s closed h
      have h2 := preserves_innerEventStep ops ev _ _ h1
      have h3 := ih _ _ h2
      simpa [closedIds_append, List.append_assoc] using h3

theorem preserves_runWithSender {σ : Type} (ops : DriverOps σ) (evs : List InnerEvent) :
    PreservesWaiterInv (runWithSender ops evs) := by
  intro s closed h
  unfold runWithSender
  dsimp only
  split
  · have h1 : WaiterInv { s with inner := (ops.Poll s.inner).2, shouldAnnounce := true }
        closed := waiterInv_of_eq rfl rfl h
    have h2 := preserves_runWithSenderLoop ops evs _ _ h1
    simpa [closedIds_append] using h2
  · have h1 : WaiterInv { s with inner := (ops.Poll s.inner).2 } closed :=
      waiterInv_of_eq rfl rfl h
    exact preserves_runWithSenderLoop ops evs _ _ h1

theorem preserves_newSenderStep {σ : Type} (ops : DriverOps σ) (evs : List InnerEvent) :
    PreservesWaiterInv (newSenderStep ops evs) := by
  intro s closed h
  unfold newSenderStep
  dsimp only
  have h1 := preserves_runWithSender ops evs s closed h
  simpa [closedIds_append, closedIds] using h1

theorem preserves_outerEventStep {σ : Type} (ops : DriverOps σ) (ev : OuterEvent) :
    PreservesWaiterInv (outerEventStep ops ev) := by
  cases ev with
  | newSender evs => exact preserves_newSenderStep ops evs
  | announceTick => exact preserves_announceTickStep
  | pollTick => exact preserves_pollTickStep ops
  | degradedTick => exact preserves_outerDegradedStep ops
  | forceSend => exact preserves_forceSendStep
  | cancel =>
    intro s closed h
    show WaiterInv s (closed ++ [])
    simpa using h

theorem preserves_runLoop {σ : Type} (ops : DriverOps σ) (sched : List OuterStep) :
    PreservesWaiterInv (runLoop ops sched) := by
  induction sched with
  | nil =>
    intro s closed h
    show WaiterInv s (closed ++ [])
    simpa using h
  | cons st rest ih =>
    intro s closed h
    unfold runLoop
    dsimp only
    split
    · exact preserves_outerAnnounceStep ops st.now st.jitter s closed h
    · have h1 := preserves_outerAnnounceStep ops st.now st.jitter s closed h
      have h2 := preserves_outerEventStep ops st.ev _ _ h1
      have h3 := ih _ _ h2
      simpa [closedIds_append, List.append_assoc] using h3

theorem preserves_run {σ : Type} (ops : DriverOps σ) (sched : List OuterStep) :
    PreservesWaiterInv (run ops sched) := by
  intro s closed h
  unfold run
  dsimp only
  have h1 := preserves_runLoop ops sched s closed h
  simpa [closedIds_append, closedIds] using h1

theorem waiterInv_init {σ : Type} (d : σ) : WaiterInv (initHeartbeatV2 d) [] := by
  refine ⟨List.nodup_nil, ?_, ?_, List.nodup_nil, ?_⟩ <;> intro i hi <;>
    simp [initHeartbeatV2] at hi

/-! ### Claim theorems -/

/-- C10: every force-send waiter is closed at most once over any execution of
the engine from its initial state (the closed-waiter ids of the whole trace
are pairwise distinct); moreover a successful announce step closes exactly the
pending waiters and empties the list, while a failed announce step closes no
waiter and leaves the list untouched (the same holds for the fallback path). -/
theorem waiters_closed_at_most_once {σ : Type} (ops : DriverOps σ) (d : σ)
    (sched : List OuterStep) :
    (closedIds (run ops sched (initHeartbeatV2 d)).2).Nodup
  ∧ (∀ s : HeartbeatV2 σ, s.shouldAnnounce = true →
      ((ops.Announce s.inner).1 = true →
        closedIds (innerAnnounceStep ops s).2 = s.announceWaiters ∧
        (innerAnnounceStep ops s).1.announceWaiters = [])
      ∧ ((ops.Announce s.inner).1 = false →
        closedIds (innerAnnounceStep ops s).2 = [] ∧
        (innerAnnounceStep ops s).1.announceWaiters = s.announceWaiters))
  ∧ (∀ (s : HeartbeatV2 σ) (now jitter : Nat),
      (s.shouldAnnounce = true → ops.SupportsFallback s.inner = true →
        s.fallbackBackoffTime < now → (ops.FallbackAnnounce s.inner).1 = true →
        closedIds (outerAnnounceStep ops now jitter s).2 = s.announceWaiters ∧
        (outerAnnounceStep ops now jitter s).1.announceWaiters = [])
      ∧ ((ops.FallbackAnnounce s.inner).1 = false →
        closedIds (outerAnnounceStep ops now jitter s).2 = [] ∧
        (outerAnnounceStep ops now jitter s).1.announceWaiters = s.announceWaiters)) := by
  refine ⟨?_, ?_, ?_⟩
  · have h := preserves_run ops sched (initHeartbeatV2 d) [] (waiterInv_init d)
    simpa using h.2.2.2.1
  · intro s hA
    constructor
    · intro hok
      simp [innerAnnounceStep, hA, hok]
    · intro hfail
      simp [innerAnnounceStep, hA, hfail]
  · intro s now jitter
    constructor
    · intro hA hsf hlt hok
      simp [outerAnnounceStep, hA, hsf, hlt, hok]
    · intro hfail
      by_cases hA : s.shouldAnnounce
      · by_cases hsf : ops.SupportsFallback s.inner
        · by_cases hlt : s.fallbackBackoffTime < now
          · simp [outerAnnounceStep, hA, hsf, hlt, hfail]
          · simp [outerAnnounceStep, hA, hsf, hlt]
        · simp [outerAnnounceStep, hA, hsf]
      · simp [outerAnnounceStep, hA]

/-- Witness for C10 at concrete inputs: a four-step schedule with two
force-sends and one inner-loop session yields a duplicate-free closed-waiter
trace, and a successful announce from a state with two parked waiters closes
exactly those two. -/
theorem waiters_closed_at_most_once_witness :
    (closedIds (run scriptOps fullSched (initHeartbeatV2 fullDrv)).2).Nodup
  ∧ closedIds (innerAnnounceStep scriptOps drainState).2 = drainState.announceWaiters :=
  ⟨(waiters_closed_at_most_once scriptOps fullDrv fullSched).1,
    (((waiters_closed_at_most_once scriptOps fullDrv fullSched).2.1 drainState rfl).1 rfl).1⟩

/-- C5: in the no-sender loop, the degraded-check tick passes the `no_sender`
sentinel to the heartbeat callback exactly when the driver has no fallback, or
its poll reports no change while the `shouldAnnounce` latch is clear. -/
theorem outer_degraded_no_sender_iff {σ : Type} (ops : DriverOps σ) (s : HeartbeatV2 σ) :
    Effect.heartbeatCb (some HBErr.noSender) ∈ (outerDegradedStep ops s).2 ↔
      (ops.SupportsFallback s.inner = false ∨
        ((ops.Poll s.inner).1 = false ∧ s.shouldAnnounce = false)) := by
  unfold outerDegradedStep
  dsimp only
  by_cases hsf : ops.SupportsFallback s.inner
  · by_cases hp : (ops.Poll s.inner).1
    · simp [hsf, hp, onHeartbeatFx]
    · by_cases hA : s.shouldAnnounce
      · simp [hsf, hp, hA, onHeartbeatFx]
      · simp [hsf, hp, hA, onHeartbeatFx]
  · simp [hsf, onHeartbeatFx]

/-- C8: in the with-sender loop, the degraded-check tick fires the heartbeat
callback with success exactly when the driver's poll reports no change and the
`shouldAnnounce` latch is clear; otherwise the tick fires no callback at all
(its trace is empty). -/
theorem inner_degraded_ok_iff {σ : Type} (ops : DriverOps σ) (s : HeartbeatV2 σ) :
    (Effect.heartbeatCb none ∈ (innerDegradedStep ops s).2 ↔
      ((ops.Poll s.inner).1 = false ∧ s.shouldAnnounce = false))
  ∧ (((ops.Poll s.inner).1 = true ∨ s.shouldAnnounce = true) →
      (innerDegradedStep ops s).2 = []) := by
  unfold innerDegradedStep
  dsimp only
  by_cases hp : (ops.Poll s.inner).1
  · simp [hp, onHeartbeatFx]
  · by_cases hA : s.shouldAnnounce
    · simp [hp, hA, onHeartbeatFx]
    · simp [hp, hA, onHeartbeatFx]

/-- Witness for C8 at concrete inputs: a quiescent state gets the success
callback, while a state with the latch set yields an empty tick trace. -/
theorem inner_degraded_ok_iff_witness :
    Effect.heartbeatCb none ∈ (innerDegradedStep scriptOps calmState).2
  ∧ (innerDegradedStep scriptOps busyState).2 = [] :=
  ⟨(inner_degraded_ok_iff scriptOps calmState).1.mpr ⟨rfl, rfl⟩,
    (inner_degraded_ok_iff scriptOps busyState).2 (Or.inr rfl)⟩

/-- C7: the SSH driver's `Poll` reports a change exactly when nothing has ever
been successfully announced (`prev` is `none`) or the current snapshot differs
from `prev` under the semantic server comparator. -/
theorem ssh_poll_changed_iff (s : SshServerHeartbeatV2) :
    (SshServerHeartbeatV2.Poll s).1 = true ↔
      (s.prev = none ∨ ∃ p, s.prev = some p ∧
        CompareServers (getServer s).1 p = CompareResult.Different) := by
  cases hp : s.prev with
  | none => simp [SshServerHeartbeatV2.Poll, hp]
  | some p => simp [SshServerHeartbeatV2.Poll, hp]

/-- C2: for the SSH driver, `prev` advances only on a successful send: a
failed stream announce or failed fallback announce leaves `prev` unchanged,
and after any failed announce (either path) the next `Poll` still reports a
change whenever the then-current snapshot differs from the last successfully
announced one. -/
theorem ssh_prev_only_on_success (s : SshServerHeartbeatV2) :
    ((SshServerHeartbeatV2.Announce s).1 = false →
      (SshServerHeartbeatV2.Announce s).2.prev = s.prev)
  ∧ ((SshServerHeartbeatV2.FallbackAnnounce s).1 = false →
      (SshServerHeartbeatV2.FallbackAnnounce s).2.prev = s.prev)
  ∧ ((SshServerHeartbeatV2.Announce s).1 = false →
      ∀ p, s.prev = some p →
        CompareServers (getServer (SshServerHeartbeatV2.Announce s).2).1 p =
          CompareResult.Different →
        (SshServerHeartbeatV2.Poll (SshServerHeartbeatV2.Announce s).2).1 = true)
  ∧ ((SshServerHeartbeatV2.FallbackAnnounce s).1 = false →
      ∀ p, s.prev = some p →
        CompareServers (getServer (SshServerHeartbeatV2.FallbackAnnounce s).2).1 p =
          CompareResult.Different →
        (SshServerHeartbeatV2.Poll (SshServerHeartbeatV2.FallbackAnnounce s).2).1 = true) := by
  have hann : (SshServerHeartbeatV2.Announce s).1 = false →
      (SshServerHeartbeatV2.Announce s).2.prev = s.prev := by
    intro h
    unfold SshServerHeartbeatV2.Announce at h ⊢
    dsimp only at h ⊢
    by_cases hc : (sendHeartbeat (getServer (getServer s).2).1 (getServer (getServer s).2).2).1 = true
    · rw [if_pos hc] at h
      simp at h
    · rw [if_neg hc]
      simp [sendHeartbeat, getServer]
  have hfb : (SshServerHeartbeatV2.FallbackAnnounce s).1 = false →
      (SshServerHeartbeatV2.FallbackAnnounce s).2.prev = s.prev := by
    intro h
    unfold SshServerHeartbeatV2.FallbackAnnounce at h ⊢
    dsimp only at h ⊢
    by_cases ha : s.hasAnnouncer = true
    · rw [if_pos ha] at h
      rw [if_pos ha]
      by_cases hu : (takeOutcome (getServer s).2.upsertResults).1 = true
      · rw [if_pos hu] at h
        simp at h
      · rw [if_neg hu]
        simp [getServer]
    · rw [if_neg ha]
  refine ⟨hann, hfb, ?_, ?_⟩
  · intro h p hp hdiff
    have hprev : (SshServerHeartbeatV2.Announce s).2.prev = some p := by
      rw [hann h, hp]
    unfold SshServerHeartbeatV2.Poll
    rw [hprev]
    simp [hdiff]
  · intro h p hp hdiff
    have hprev : (SshServerHeartbeatV2.FallbackAnnounce s).2.prev = some p := by
      rw [hfb h, hp]
    unfold SshServerHeartbeatV2.Poll
    rw [hprev]
    simp [hdiff]

/-- Witness for C2 at a concrete input: a failed stream send (empty send
script) leaves `prev = some srvA`, and since the current snapshot is `srvB`,
the next `Poll` reports a change. -/
theorem ssh_prev_only_on_success_witness :
    (SshServerHeartbeatV2.Poll (SshServerHeartbeatV2.Announce staleState).2).1 = true :=
  (ssh_prev_only_on_success staleState).2.2.1 rfl srvA rfl (by decide)

/-- C3 (code bug): evaluating the SSH driver's `Announce` on a state whose
advertised spec changes between the two `getServer` calls of a single
`Announce` shows a successful send whose recorded `prev` (`srvA`, the first
call's result) is not the snapshot actually sent (`srvB`, the second call's
result), contradicting the spec's requirement that on success the driver
record the sent snapshot as `prev`. -/
theorem ssh_announce_records_unsent_snapshot :
    (SshServerHeartbeatV2.Announce driftState).1 = true
  ∧ (SshServerHeartbeatV2.Announce driftState).2.sentPayloads = [srvB]
  ∧ (SshServerHeartbeatV2.Announce driftState).2.prev = some srvA
  ∧ srvA ≠ srvB := by
  refine ⟨rfl, rfl, rfl, ?_⟩
  decide

/-- C6: a failed send fires exactly the matching sentinel through the
heartbeat callback and keeps the latch set: a failed stream announce fires
`announce_failed` and leaves `fallbackBackoffTime` unchanged, while a failed
fallback announce fires `fallback_failed` and moves `fallbackBackoffTime` to
`now + jitter` (the jittered fallback backoff). -/
theorem failed_send_effects {σ : Type} (ops : DriverOps σ) (now jitter : Nat)
    (s : HeartbeatV2 σ) (hA : s.shouldAnnounce = true) :
    ((ops.Announce s.inner).1 = false →
      (innerAnnounceStep ops s).2 =
        [Effect.announceCall, Effect.testEvt TestEvt.announceErr,
          Effect.testEvt TestEvt.onHeartbeatErr, Effect.heartbeatCb (some HBErr.announceFailed)]
      ∧ (innerAnnounceStep ops s).1.shouldAnnounce = true
      ∧ (innerAnnounceStep ops s).1.fallbackBackoffTime = s.fallbackBackoffTime)
  ∧ (ops.SupportsFallback s.inner = true → s.fallbackBackoffTime < now →
      (ops.FallbackAnnounce s.inner).1 = false →
      (outerAnnounceStep ops now jitter s).2 =
        [Effect.fallbackAnnounceCall, Effect.testEvt TestEvt.fallbackErr,
          Effect.testEvt TestEvt.onHeartbeatErr, Effect.heartbeatCb (some HBErr.fallbackFailed)]
      ∧ (outerAnnounceStep ops now jitter s).1.shouldAnnounce = true
      ∧ (outerAnnounceStep ops now jitter s).1.fallbackBackoffTime = now + jitter) := by
  constructor
  · intro hfail
    simp [innerAnnounceStep, hA, hfail, onHeartbeatFx]
  · intro hsf hlt hfail
    simp [outerAnnounceStep, hA, hsf, hlt, hfail, onHeartbeatFx]

/-- Witness for C6 at a concrete input: both failure paths of `failState`
produce exactly the matching sentinel trace, keep the latch set, and the
fallback failure moves the backoff deadline to `3 + 4`. -/
theorem failed_send_effects_witness :
    ((innerAnnounceStep scriptOps failState).2 =
        [Effect.announceCall, Effect.testEvt TestEvt.announceErr,
          Effect.testEvt TestEvt.onHeartbeatErr, Effect.heartbeatCb (some HBErr.announceFailed)]
      ∧ (innerAnnounceStep scriptOps failState).1.shouldAnnounce = true
      ∧ (innerAnnounceStep scriptOps failState).1.fallbackBackoffTime =
          failState.fallbackBackoffTime)
  ∧ ((outerAnnounceStep scriptOps 3 4 failState).2 =
        [Effect.fallbackAnnounceCall, Effect.testEvt TestEvt.fallbackErr,
          Effect.testEvt TestEvt.onHeartbeatErr, Effect.heartbeatCb (some HBErr.fallbackFailed)]
      ∧ (outerAnnounceStep scriptOps 3 4 failState).1.shouldAnnounce = true
      ∧ (outerAnnounceStep scriptOps 3 4 failState).1.fallbackBackoffTime = 3 + 4) :=
  ⟨(failed_send_effects scriptOps 3 4 failState rfl).1 rfl,
    (failed_send_effects scriptOps 3 4 failState rfl).2 rfl (by decide) rfl⟩

/-- C1 counterexample: on a concrete successful stream announce with one
parked waiter, the latch-clear does not precede the announce-interval reset
(the timers are reset first), and the waiter is not closed before the
heartbeat-ok callback fires — refuting the claimed order latch-clear,
timer-reset, waiter-fire, heartbeat-ok, at this explicit input. -/
theorem success_order_claim_refuted :
    firstBefore (fun e => e == Effect.latchAssign false)
        (fun e => e == Effect.resetAnnounce) (innerAnnounceStep scriptOps okState).2 = false
  ∧ firstBefore (fun e => e == Effect.closeWaiter 0)
        (fun e => e == Effect.heartbeatCb none) (innerAnnounceStep scriptOps okState).2 = false
  ∧ Effect.latchAssign false ∈ (innerAnnounceStep scriptOps okState).2
  ∧ Effect.resetAnnounce ∈ (innerAnnounceStep scriptOps okState).2
  ∧ Effect.closeWaiter 0 ∈ (innerAnnounceStep scriptOps okState).2
  ∧ Effect.heartbeatCb none ∈ (innerAnnounceStep scriptOps okState).2 := by
  decide

/-- C1 (amended): every successful announce step (stream or fallback path)
performs one sequenced block of effects whose order is: driver call, success
test event, announce-interval reset, degraded-check reset, latch-clear,
heartbeat-ok callback, then closing and draining all pending waiters — so the
latch is cleared after the timer resets but before the waiters fire. -/
theorem success_block_effect_order {σ : Type} (ops : DriverOps σ) (now jitter : Nat)
    (s : HeartbeatV2 σ) (hA : s.shouldAnnounce = true) :
    ((ops.Announce s.inner).1 = true →
      (innerAnnounceStep ops s).2 =
        [Effect.announceCall, Effect.testEvt TestEvt.announceOk, Effect.resetAnnounce,
          Effect.resetDegradedCheck, Effect.latchAssign false,
          Effect.testEvt TestEvt.onHeartbeatOk, Effect.heartbeatCb none]
          ++ s.announceWaiters.map Effect.closeWaiter)
  ∧ (ops.SupportsFallback s.inner = true → s.fallbackBackoffTime < now →
      (ops.FallbackAnnounce s.inner).1 = true →
      (outerAnnounceStep ops now jitter s).2 =
        [Effect.fallbackAnnounceCall, Effect.testEvt TestEvt.fallbackOk, Effect.resetAnnounce,
          Effect.resetDegradedCheck, Effect.latchAssign false,
          Effect.testEvt TestEvt.onHeartbeatOk, Effect.heartbeatCb none]
          ++ s.announceWaiters.map Effect.closeWaiter) := by
  constructor
  · intro hok
    simp [innerAnnounceStep, hA, hok, onHeartbeatFx]
  · intro hsf hlt hok
    simp [outerAnnounceStep, hA, hsf, hlt, hok, onHeartbeatFx]

/-- Witness for the amended C1 at a concrete input: the successful announce
from `okState` produces exactly the sequenced block ending in the waiter
close. -/
theorem success_block_effect_order_witness :
    (innerAnnounceStep scriptOps okState).2 =
      [Effect.announceCall, Effect.testEvt TestEvt.announceOk, Effect.resetAnnounce,
        Effect.resetDegradedCheck, Effect.latchAssign false,
        Effect.testEvt TestEvt.onHeartbeatOk, Effect.heartbeatCb none]
        ++ okState.announceWaiters.map Effect.closeWaiter :=
  (success_block_effect_order scriptOps 0 0 okState rfl).1 rfl

/-- C4 counterexample: at the boundary instant where the current time equals
the fallback deadline (`now = 5 = fallbackBackoffTime`), the latch is set and
fallback is supported, yet the engine emits only the backoff event and makes
no fallback attempt — refuting the claim that an attempt occurs exactly when
the latch is set, fallback is supported and the current time is not before
the deadline. -/
theorem fallback_gate_claim_refuted :
    ¬ ((Effect.fallbackAnnounceCall ∈ (outerAnnounceStep scriptOps 5 1 gateState).2) ↔
        (gateState.shouldAnnounce = true
          ∧ scriptOps.SupportsFallback gateState.inner = true
          ∧ ¬ (5 < gateState.fallbackBackoffTime))) := by
  decide

/-- C4 (amended): in an outer-loop preamble, a fallback attempt occurs exactly
when the latch is set, the driver supports fallback, and the current time is
strictly after the fallback deadline; with the latch set but no fallback the
trace is exactly the no-fallback event, and with the latch set, fallback
supported, and the time not strictly after the deadline the trace is exactly
the backoff event. -/
theorem fallback_gate_iff {σ : Type} (ops : DriverOps σ) (now jitter : Nat)
    (s : HeartbeatV2 σ) :
    (Effect.fallbackAnnounceCall ∈ (outerAnnounceStep ops now jitter s).2 ↔
      (s.shouldAnnounce = true ∧ ops.SupportsFallback s.inner = true ∧
        s.fallbackBackoffTime < now))
  ∧ (s.shouldAnnounce = true → ops.SupportsFallback s.inner = false →
      (outerAnnounceStep ops now jitter s).2 = [Effect.testEvt TestEvt.noFallback])
  ∧ (s.shouldAnnounce = true → ops.SupportsFallback s.inner = true →
      ¬ s.fallbackBackoffTime < now →
      (outerAnnounceStep ops now jitter s).2 = [Effect.testEvt TestEvt.fallbackBackoff]) := by
  refine ⟨?_, ?_, ?_⟩
  · by_cases hA : s.shouldAnnounce
    · by_cases hsf : ops.SupportsFallback s.inner
      · by_cases hlt : s.fallbackBackoffTime < now
        · by_cases hok : (ops.FallbackAnnounce s.inner).1 = true
          · simp [outerAnnounceStep, hA, hsf, hlt, hok, onHeartbeatFx]
          · simp only [Bool.not_eq_true] at hok
            simp [outerAnnounceStep, hA, hsf, hlt, hok, onHeartbeatFx]
        · simp [outerAnnounceStep, hA, hsf, hlt]
      · simp [outerAnnounceStep, hA, hsf]
    · simp [outerAnnounceStep, hA]
  · intro hA hsf
    simp [outerAnnounceStep, hA, hsf]
  · intro hA hsf hlt
    simp [outerAnnounceStep, hA, hsf, hlt]

/-- Witness for the amended C4 at concrete inputs: one instant past the
deadline the attempt happens, and at the deadline itself the trace is exactly
the backoff event. -/
theorem fallback_gate_iff_witness :
    Effect.fallbackAnnounceCall ∈ (outerAnnounceStep scriptOps 6 1 gateState).2
  ∧ (outerAnnounceStep scriptOps 5 1 gateState).2 = [Effect.testEvt TestEvt.fallbackBackoff] :=
  ⟨(fallback_gate_iff scriptOps 6 1 gateState).1.mpr ⟨rfl, rfl, by decide⟩,
    (fallback_gate_iff scriptOps 5 1 gateState).2.2 rfl rfl (by decide)⟩

/-- C9 counterexample: on a concrete new-sender transition whose inner session
immediately attempts (and fails) a stream announce before the sender is done,
no degraded-check reset precedes the announce attempt — the only reset occurs
after the inner loop returns — refuting the claim that the degraded-check
interval is reset before the inner loop starts processing. -/
theorem newSender_reset_claim_refuted :
    firstBefore (fun e => e == Effect.resetDegradedCheck)
        (fun e => e == Effect.announceCall)
        (newSenderStep scriptOps [InnerEvent.senderDone] reconnectState).2 = false
  ∧ Effect.resetDegradedCheck ∈ (newSenderStep scriptOps [InnerEvent.senderDone] reconnectState).2
  ∧ Effect.announceCall ∈ (newSenderStep scriptOps [InnerEvent.senderDone] reconnectState).2 := by
  decide

/-- C9 (amended): when a new sender is received in the no-sender loop the
engine first runs the with-sender inner loop and resets the degraded-check
interval only after that loop returns (its reset is the trailing effect of the
new-sender case); the inner loop returns as soon as the sender-done signal is
delivered (after the pending announce preamble), and the outer loop then
continues with its remaining schedule. -/
theorem newSender_resets_after_inner {σ : Type} (ops : DriverOps σ)
    (evs : List InnerEvent) (s : HeartbeatV2 σ) :
    ((newSenderStep ops evs s).2 = (runWithSender ops evs s).2 ++ [Effect.resetDegradedCheck])
  ∧ ((newSenderStep ops evs s).1 = (runWithSender ops evs s).1)
  ∧ (∀ (rest : List InnerEvent) (t : HeartbeatV2 σ),
      runWithSenderLoop ops (InnerEvent.senderDone :: rest) t = innerAnnounceStep ops t)
  ∧ (∀ (rest : List OuterStep) (now jitter : Nat),
      runLoop ops ({ now := now, jitter := jitter, ev := OuterEvent.newSender evs } :: rest) s =
        ((runLoop ops rest (newSenderStep ops evs (outerAnnounceStep ops now jitter s).1).1).1,
          (outerAnnounceStep ops now jitter s).2
            ++ (newSenderStep ops evs (outerAnnounceStep ops now jitter s).1).2
            ++ (runLoop ops rest
                  (newSenderStep ops evs (outerAnnounceStep ops now jitter s).1).1).2)) := by
  refine ⟨rfl, rfl, fun rest t => rfl, fun rest now jitter => ?_⟩
  simp [runLoop, outerEventStep]

end Teleport
